import Mathlib

/-!
Shallow embedding of the air-pollution observation station service
(`app.py`): the haversine distance, the nearest-station matcher, the
Discord-embed formatter with its AQI severity classification, the
freshness check over the module variable `_last_import`, and the
scheduled poll cycle `check_and_notify`.

Upstream records are Python dicts with possibly missing or unparseable
string fields; we model them as a structure of `Option` fields, where
`none` stands for an absent key (and, for the coordinates, also for a
value `float()` rejects, since the source's bare `except` treats both
alike).  Floating-point numbers are modelled by real numbers.
-/

/-- One upstream observation record (a Python dict).  `latitude` and
`longitude` hold the result of `float(r["latitude"])` /
`float(r["longitude"])`: `none` when the key is missing or the value
does not parse, `some x` when it parses to the number `x`.  All other
fields hold the raw string, `none` when the key is absent. -/
structure StationRecord where
  county : Option String := none
  sitename : Option String := none
  latitude : Option ℝ := none
  longitude : Option ℝ := none
  aqi : Option String := none
  status : Option String := none
  pm25 : Option String := none
  pm10 : Option String := none
  o3 : Option String := none
  co : Option String := none
  so2 : Option String := none
  no2 : Option String := none
  wind_speed : Option String := none
  wind_direc : Option String := none
  publishtime : Option String := none
  publishtime_iso : Option String := none
  importDate : Option String := none

/-- One entry of the `fields` array of the Discord embed. -/
structure EmbedField where
  name : String
  value : String
  inline : Bool
deriving DecidableEq

/-- The webhook payload produced by `build_embed`. -/
structure Payload where
  username : String
  content : Option String
  title : String
  description : String
  color : Nat
  timestamp : Option String
  fields : List EmbedField
  footer : String
deriving DecidableEq

/-- Model of CPython `int(s)` on the ASCII decimal strings that occur in
this data source: strip surrounding whitespace, an optional single sign,
then one or more digits; anything else raises (returns `none`). -/
def pyInt (s : String) : Option Int :=
  let t := ((s.toList.dropWhile Char.isWhitespace).reverse.dropWhile
    Char.isWhitespace).reverse
  match t with
  | [] => none
  | c :: rest =>
    let signed : Int × List Char :=
      if c = '-' then (-1, rest)
      else if c = '+' then (1, rest)
      else (1, c :: rest)
    if signed.2.isEmpty then none
    else if signed.2.all Char.isDigit then
      some (signed.1 * (signed.2.foldl (fun n ch => 10 * n + (ch.toNat - 48)) 0 : Nat))
    else none

/-- The AQI severity classification of `build_embed` (lines 83-96 of
`app.py`): the remark string and embed colour chosen by the `if`/`elif`
chain on `aqi_val`, where `aqi_val = none` models the failed `int(aqi)`
conversion. -/
def classify (aqi_val : Option Int) : String × Nat :=
  match aqi_val with
  | none => ("無資料", 0x808080)
  | some v =>
    if v ≤ 50 then ("👍 空氣品質良好，適合戶外活動!", 0x008000)
    else if v ≤ 100 then ("👌 普通，長時間戶外要注意體感。", 0xFFFF00)
    else if v ≤ 150 then ("⚠️ 對敏感族群不佳，請減少戶外活動。", 0xFFA500)
    else if v ≤ 200 then ("⚠️ 對所有族群不健康，建議減少外出。", 0xFF0000)
    else if v ≤ 300 then ("🚨 非常不健康，建議避免外出。", 0x800080)
    else ("☠️ 危害健康，應留在室內並採取防護措施。", 0xA52A2A)

/-- `build_embed(data)` from `app.py`.  `data.get("aqi", "N/A")` becomes
`data.aqi.getD "N/A"`; the `try: int(aqi) except:` becomes `pyInt`; the
f-string `f"{data['county']} / {data['sitename']}"` uses bracket access,
so a record lacking either key raises `KeyError`, modelled by `none`. -/
def build_embed (data : StationRecord) : Option Payload :=
  let aqi := data.aqi.getD "N/A"
  let rc := classify (pyInt aqi)
  match data.county, data.sitename with
  | some county, some sitename =>
    let city := county ++ " / " ++ sitename
    some
      { username := "空氣小幫手 🌤️"
        content := none
        title := "🌆 空氣品質快報"
        description := city ++ " 當前空氣品質數據如下:"
        color := rc.2
        timestamp := data.publishtime_iso
        fields :=
          [ ⟨"地區", city, true⟩,
            ⟨"AQI", aqi, true⟩,
            ⟨"狀態", data.status.getD "N/A", true⟩,
            ⟨"PM2.5", data.pm25.getD "N/A", true⟩,
            ⟨"PM10", data.pm10.getD "N/A", true⟩,
            ⟨"O₃", data.o3.getD "N/A", true⟩,
            ⟨"CO", data.co.getD "N/A", true⟩,
            ⟨"SO₂", data.so2.getD "N/A", true⟩,
            ⟨"NO₂", data.no2.getD "N/A", true⟩,
            ⟨"風速(m/s)", data.wind_speed.getD "N/A", true⟩,
            ⟨"風向(°)", data.wind_direc.getD "N/A", true⟩,
            ⟨"更新時間", data.publishtime.getD "N/A", false⟩,
            ⟨"📝 建議活動", rc.1, false⟩ ]
        footer := "由彭大帥團隊開發中" }
  | _, _ => none

/-- `math.radians(x)`: degrees to radians. -/
noncomputable def radians (x : ℝ) : ℝ := x * Real.pi / 180

/-- `math.atan2(y, x)`: the two-argument arctangent, as specified for
the C `atan2` that Python's `math.atan2` wraps (real-valued model). -/
noncomputable def atan2 (y x : ℝ) : ℝ :=
  if 0 < x then Real.arctan (y / x)
  else if x < 0 then
    (if 0 ≤ y then Real.arctan (y / x) + Real.pi
     else Real.arctan (y / x) - Real.pi)
  else if 0 < y then Real.pi / 2
  else if y < 0 then -(Real.pi / 2)
  else 0

/-- The intermediate `a` of `haversine` in `app.py`:
`sin(Δφ/2)**2 + cos(φ1)*cos(φ2)*sin(Δλ/2)**2`. -/
noncomputable def hav_a (lat1 lon1 lat2 lon2 : ℝ) : ℝ :=
  Real.sin (radians (lat2 - lat1) / 2) ^ 2 +
    Real.cos (radians lat1) * Real.cos (radians lat2) *
      Real.sin (radians (lon2 - lon1) / 2) ^ 2

/-- `haversine(lat1, lon1, lat2, lon2)` from `app.py`:
`R * 2 * atan2(sqrt(a), sqrt(1-a))` with `R = 6371` km. -/
noncomputable def haversine (lat1 lon1 lat2 lon2 : ℝ) : ℝ :=
  6371 * 2 * atan2 (Real.sqrt (hav_a lat1 lon1 lat2 lon2))
    (Real.sqrt (1 - hav_a lat1 lon1 lat2 lon2))

/-- The loop body of `find_nearest`: the `try: float(...) except:
continue` either yields both coordinates or skips the record, and the
record is kept (paired with its distance) when `d <= max_km`. -/
noncomputable def toCand (lat lon max_km : ℝ) (r : StationRecord) :
    Option (StationRecord × ℝ) :=
  match r.latitude, r.longitude with
  | some rl, some rn =>
    if haversine lat lon rl rn ≤ max_km then
      some (r, haversine lat lon rl rn)
    else none
  | _, _ => none

/-- The comparison `key=lambda x: x[1]` induces on candidate pairs. -/
noncomputable def leDist (a b : StationRecord × ℝ) : Bool :=
  decide (a.2 ≤ b.2)

/-- `find_nearest(records, lat, lon, max_km=10)` from `app.py`.
Python's `candidates.sort(key=lambda x: x[1])` is a stable sort by the
stored distance; `List.mergeSort` with the non-strict comparison on the
second component is extensionally that stable sort (it returns a
permutation, pairwise non-decreasing, preserving the relative order of
elements the comparison cannot distinguish). -/
noncomputable def find_nearest (records : List StationRecord)
    (lat lon : ℝ) (max_km : ℝ := 10) : List StationRecord :=
  let candidates := records.filterMap (toCand lat lon max_km)
  (candidates.mergeSort leDist).map Prod.fst

/-- The distance `find_nearest` associates to a record (meaningful when
both coordinates parsed). -/
noncomputable def distOf (lat lon : ℝ) (r : StationRecord) : ℝ :=
  haversine lat lon (r.latitude.getD 0) (r.longitude.getD 0)

/-- Both coordinates of the record parsed as numbers. -/
def hasCoords (r : StationRecord) : Bool :=
  r.latitude.isSome && r.longitude.isSome

/-- The freshness check of the poll cycle (lines 136-138 of `app.py`):
`if newest != _last_import: _last_import = newest`.  The module variable
`_last_import` is `None` initially, so the state is `Option String`;
the returned pair is (did the comparison fire, new state). -/
def isNewRevision (r : String) (last : Option String) : Bool × Option String :=
  if some r ≠ last then (true, some r) else (false, last)

/-- `check_and_notify` from `app.py`, with the two external effects made
explicit: the awaited `fetch_all_records()` outcome is the `fetched`
argument (`.error` models a raised fetch/HTTP/JSON exception), and the
result is the new value of `_last_import` together with the number of
webhook deliveries attempted.  The surrounding `try/except` swallows
every exception: a missing `ImportDate` key aborts before the state
assignment, while a `KeyError` inside `build_embed` aborts after it
(the assignment `_last_import = newest` precedes the formatting). -/
def check_and_notify (fetched : Except Unit (List StationRecord))
    (last : Option String) : Option String × Nat :=
  match fetched with
  | .error _ => (last, 0)
  | .ok records =>
    match records with
    | [] => (last, 0)
    | r :: _ =>
      match r.importDate with
      | none => (last, 0)
      | some newest =>
        match isNewRevision newest last with
        | (true, st) =>
          match build_embed r with
          | some _ => (st, 1)
          | none => (st, 0)
        | (false, st) => (st, 0)

/-! ## Concrete records used as witnesses and counterexamples -/

/-- A first record carrying a fresh `ImportDate` but no `county` key. -/
def c5_bad : StationRecord := { importDate := some "2024-01-01T00:00" }

/-- A well-formed first record. -/
def c5_good : StationRecord :=
  { county := some "臺北市", sitename := some "中山",
    importDate := some "2024-01-01T00:00" }

/-! ## C1: the freshness tracker -/

/-- C1: the freshness check returns `true` and stores `r` as new last
seen value iff `r` differs from the stored value; the initial state
(`_last_import = None`) always yields `true`.  As a state machine:
Unset goes to Seen r with `true`; Seen v goes to Seen r with `true` when
`v ≠ r`; Seen r stays Seen r with `false`. -/
theorem isNewRevision_spec (r : String) (last : Option String) :
    ((isNewRevision r last).1 = true ∧ (isNewRevision r last).2 = some r
      ↔ last ≠ some r) ∧
    ((isNewRevision r last).1 = false ∧ (isNewRevision r last).2 = last
      ↔ last = some r) ∧
    (isNewRevision r none = (true, some r)) ∧
    (∀ v : String, v ≠ r → isNewRevision r (some v) = (true, some r)) ∧
    (isNewRevision r (some r) = (false, some r)) := by
  refine ⟨?_, ?_, ?_, ?_, ?_⟩
  · rcases eq_or_ne last (some r) with h | h
    · subst h; simp [isNewRevision]
    · simp [isNewRevision, h, h.symm]
  · rcases eq_or_ne last (some r) with h | h
    · subst h; simp [isNewRevision]
    · simp [isNewRevision, h, h.symm]
  · simp [isNewRevision]
  · intro v hv
    simp [isNewRevision, (Option.some_injective String).ne_iff.mpr hv.symm]
  · simp [isNewRevision]

/-- Witness for C1 at concrete revision identifiers. -/
theorem isNewRevision_spec_witness :
    isNewRevision "2024-01-01T00:00" (some "2023-12-31T23:00")
      = (true, some "2024-01-01T00:00") ∧
    isNewRevision "2024-01-01T00:00" none
      = (true, some "2024-01-01T00:00") ∧
    isNewRevision "2024-01-01T00:00" (some "2024-01-01T00:00")
      = (false, some "2024-01-01T00:00") :=
  ⟨(isNewRevision_spec "2024-01-01T00:00" (some "2023-12-31T23:00")).2.2.2.1
      "2023-12-31T23:00" (by decide),
   (isNewRevision_spec "2024-01-01T00:00" none).2.2.1,
   (isNewRevision_spec "2024-01-01T00:00" (some "2024-01-01T00:00")).2.2.2.2⟩

/-! ## C8: fetch failure aborts the cycle -/

/-- C8: when the upstream fetch raises, the cycle is aborted: no
notification is attempted and `_last_import` is unchanged. -/
theorem check_and_notify_fetch_failure (last : Option String) :
    check_and_notify (.error ()) last = (last, 0) := rfl

/-! ## C5: the poll cycle -/

/-- C5 counterexample: a record set whose first record has a fresh
revision but no `county` key yields a new revision (`isNewRevision`
fires) and still zero notifications, because `build_embed` raises after
`_last_import` was reassigned. -/
theorem check_and_notify_not_iff :
    (isNewRevision "2024-01-01T00:00" none).1 = true ∧
    check_and_notify (.ok [c5_bad]) none = (some "2024-01-01T00:00", 0) := by
  exact ⟨rfl, rfl⟩

/-- C5 amended: an empty record set does nothing; when the first record
carries its `ImportDate`, `county` and `sitename` keys, the cycle sends
exactly one notification iff that revision differs from the stored one
(and stores it); and a second poll over the same record set always
sends zero notifications. -/
theorem check_and_notify_spec (recs : List StationRecord)
    (last : Option String) :
    (check_and_notify (.ok []) last = (last, 0)) ∧
    (∀ r rs d c s, recs = r :: rs → r.importDate = some d →
      r.county = some c → r.sitename = some s →
      check_and_notify (.ok recs) last =
        (some d, if some d = last then 0 else 1)) ∧
    ((check_and_notify (.ok recs)
        ((check_and_notify (.ok recs) last).1)).2 = 0) := by
  refine ⟨rfl, ?_, ?_⟩
  · rintro r rs d c s rfl hd hc hs
    obtain ⟨p, hp⟩ : ∃ p, build_embed r = some p := by
      simp only [build_embed, hc, hs]
      exact ⟨_, rfl⟩
    by_cases h : some d = last
    · subst h
      simp [check_and_notify, hd, isNewRevision]
    · simp [check_and_notify, hd, isNewRevision, h, hp]
  · cases recs with
    | nil => rfl
    | cons r rs =>
      cases hd : r.importDate with
      | none => simp [check_and_notify, hd]
      | some d =>
        have h1 : (check_and_notify (.ok (r :: rs)) last).1 = some d := by
          by_cases h : some d = last
          · subst h
            simp [check_and_notify, hd, isNewRevision]
          · cases hb : build_embed r <;>
              simp [check_and_notify, hd, isNewRevision, h, hb]
        rw [h1]
        cases hb : build_embed r <;>
          simp [check_and_notify, hd, isNewRevision, hb]

/-- Witness for C5 (amended) at the spec's end-to-end example: prior
revision `2023-12-31T23:00`, fresh first record revision
`2024-01-01T00:00`: one notification, then zero on the repeat poll. -/
theorem check_and_notify_spec_witness :
    check_and_notify (.ok [c5_good]) (some "2023-12-31T23:00")
      = (some "2024-01-01T00:00", 1) ∧
    (check_and_notify (.ok [c5_good])
      ((check_and_notify (.ok [c5_good]) (some "2023-12-31T23:00")).1)).2
      = 0 := by
  have h := check_and_notify_spec [c5_good] (some "2023-12-31T23:00")
  refine ⟨?_, h.2.2⟩
  have h2 := h.2.1 c5_good [] "2024-01-01T00:00" "臺北市" "中山"
    rfl rfl rfl rfl
  rw [if_neg (by decide)] at h2
  exact h2

/-! ## C3: totality of the formatter -/

/-- The seven severity buckets of the table (remark, colour). -/
def sevenBuckets : List (String × Nat) :=
  [ ("無資料", 0x808080),
    ("👍 空氣品質良好，適合戶外活動!", 0x008000),
    ("👌 普通，長時間戶外要注意體感。", 0xFFFF00),
    ("⚠️ 對敏感族群不佳，請減少戶外活動。", 0xFFA500),
    ("⚠️ 對所有族群不健康，建議減少外出。", 0xFF0000),
    ("🚨 非常不健康，建議避免外出。", 0x800080),
    ("☠️ 危害健康，應留在室內並採取防護措施。", 0xA52A2A) ]

/-- C3 counterexample: on the empty record (every key missing)
`build_embed` fails — the f-string `f"{data['county']} / ..."` raises
`KeyError` — so the formatter is not total as claimed. -/
theorem build_embed_empty_fails : build_embed {} = none := rfl

/-- C3 amended: for every record that carries its `county` and
`sitename` keys — all other fields may be missing or malformed —
`build_embed` produces a payload, and every AQI parse outcome (absent,
unparseable, or any integer) lands in exactly one of the seven severity
buckets. -/
theorem build_embed_total_amended :
    (∀ (data : StationRecord) (c s : String),
      data.county = some c → data.sitename = some s →
      (build_embed data).isSome = true) ∧
    (∀ x : Option Int, sevenBuckets.count (classify x) = 1) := by
  constructor
  · intro data c s hc hs
    simp [build_embed, hc, hs]
  · intro x
    match x with
    | none => decide
    | some v =>
      rcases le_or_lt v 50 with h1 | h1
      · have hc : classify (some v) = ("👍 空氣品質良好，適合戶外活動!", 0x008000) := by
          simp [classify, h1]
        rw [hc]; decide
      rcases le_or_lt v 100 with h2 | h2
      · have hc : classify (some v) = ("👌 普通，長時間戶外要注意體感。", 0xFFFF00) := by
          simp [classify, h1.not_le, h2]
        rw [hc]; decide
      rcases le_or_lt v 150 with h3 | h3
      · have hc : classify (some v) = ("⚠️ 對敏感族群不佳，請減少戶外活動。", 0xFFA500) := by
          simp [classify, h1.not_le, h2.not_le, h3]
        rw [hc]; decide
      rcases le_or_lt v 200 with h4 | h4
      · have hc : classify (some v) = ("⚠️ 對所有族群不健康，建議減少外出。", 0xFF0000) := by
          simp [classify, h1.not_le, h2.not_le, h3.not_le, h4]
        rw [hc]; decide
      rcases le_or_lt v 300 with h5 | h5
      · have hc : classify (some v) = ("🚨 非常不健康，建議避免外出。", 0x800080) := by
          simp [classify, h1.not_le, h2.not_le, h3.not_le, h4.not_le, h5]
        rw [hc]; decide
      · have hc : classify (some v) = ("☠️ 危害健康，應留在室內並採取防護措施。", 0xA52A2A) := by
          simp [classify, h1.not_le, h2.not_le, h3.not_le, h4.not_le, h5.not_le]
        rw [hc]; decide

/-- Witness for C3 (amended): a record with only `county`/`sitename`,
and the AQI parse outcomes of the spec's test values. -/
theorem build_embed_total_amended_witness :
    (build_embed { county := some "臺北市", sitename := some "中山" }).isSome
      = true ∧
    sevenBuckets.count (classify (pyInt "abc")) = 1 ∧
    sevenBuckets.count (classify (pyInt "-5")) = 1 ∧
    sevenBuckets.count (classify (pyInt "1000")) = 1 :=
  ⟨build_embed_total_amended.1 _ "臺北市" "中山" rfl rfl,
   build_embed_total_amended.2 (pyInt "abc"),
   build_embed_total_amended.2 (pyInt "-5"),
   build_embed_total_amended.2 (pyInt "1000")⟩

/-! ## C4: the classification table -/

/-- C4: `build_embed` classifies the AQI by the spec's table: a failed
parse gives the no-data remark and gray; the integer ranges (upper ends
inclusive, ascending, first match winning) give the six coloured
buckets; and the payload's colour and final remark field are exactly
the chosen bucket. -/
theorem classify_table :
    (∀ s : String, pyInt s = none →
      classify (pyInt s) = ("無資料", 0x808080)) ∧
    (∀ v : Int, v ≤ 50 →
      classify (some v) = ("👍 空氣品質良好，適合戶外活動!", 0x008000)) ∧
    (∀ v : Int, 50 < v → v ≤ 100 →
      classify (some v) = ("👌 普通，長時間戶外要注意體感。", 0xFFFF00)) ∧
    (∀ v : Int, 100 < v → v ≤ 150 →
      classify (some v) = ("⚠️ 對敏感族群不佳，請減少戶外活動。", 0xFFA500)) ∧
    (∀ v : Int, 150 < v → v ≤ 200 →
      classify (some v) = ("⚠️ 對所有族群不健康，建議減少外出。", 0xFF0000)) ∧
    (∀ v : Int, 200 < v → v ≤ 300 →
      classify (some v) = ("🚨 非常不健康，建議避免外出。", 0x800080)) ∧
    (∀ v : Int, 300 < v →
      classify (some v) = ("☠️ 危害健康，應留在室內並採取防護措施。", 0xA52A2A)) ∧
    (∀ (data : StationRecord) (c s : String) (p : Payload),
      data.county = some c → data.sitename = some s →
      build_embed data = some p →
      p.color = (classify (pyInt (data.aqi.getD "N/A"))).2 ∧
      p.fields.getLast? = some ⟨"📝 建議活動",
        (classify (pyInt (data.aqi.getD "N/A"))).1, false⟩) := by
  refine ⟨?_, ?_, ?_, ?_, ?_, ?_, ?_, ?_⟩
  · intro s h; rw [h]; rfl
  · intro v h1; simp [classify, h1]
  · intro v h1 h2; simp [classify, h1.not_le, h2]
  · intro v h1 h2
    have n1 : ¬ v ≤ 50 := by omega
    simp [classify, n1, h1.not_le, h2]
  · intro v h1 h2
    have n1 : ¬ v ≤ 50 := by omega
    have n2 : ¬ v ≤ 100 := by omega
    simp [classify, n1, n2, h1.not_le, h2]
  · intro v h1 h2
    have n1 : ¬ v ≤ 50 := by omega
    have n2 : ¬ v ≤ 100 := by omega
    have n3 : ¬ v ≤ 150 := by omega
    simp [classify, n1, n2, n3, h1.not_le, h2]
  · intro v h1
    have n1 : ¬ v ≤ 50 := by omega
    have n2 : ¬ v ≤ 100 := by omega
    have n3 : ¬ v ≤ 150 := by omega
    have n4 : ¬ v ≤ 200 := by omega
    simp [classify, n1, n2, n3, n4, h1.not_le]
  · intro data c s p hc hs hp
    simp only [build_embed, hc, hs] at hp
    obtain rfl : _ = p := Option.some_injective _ hp
    exact ⟨rfl, rfl⟩

/-- A record whose AQI sits in the orange bucket. -/
def c4_rec : StationRecord :=
  { county := some "高雄市", sitename := some "前金", aqi := some "120" }

/-- Witness for C4 at the bucket boundaries and a concrete payload. -/
theorem classify_table_witness :
    classify (pyInt "abc") = ("無資料", 0x808080) ∧
    classify (some 50) = ("👍 空氣品質良好，適合戶外活動!", 0x008000) ∧
    classify (some 51) = ("👌 普通，長時間戶外要注意體感。", 0xFFFF00) ∧
    classify (some 101) = ("⚠️ 對敏感族群不佳，請減少戶外活動。", 0xFFA500) ∧
    classify (some 151) = ("⚠️ 對所有族群不健康，建議減少外出。", 0xFF0000) ∧
    classify (some 300) = ("🚨 非常不健康，建議避免外出。", 0x800080) ∧
    classify (some 301) = ("☠️ 危害健康，應留在室內並採取防護措施。", 0xA52A2A) ∧
    (build_embed c4_rec).map Payload.color = some 0xFFA500 := by
  have h := classify_table
  refine ⟨h.1 "abc" (by decide), h.2.1 50 (by decide),
    h.2.2.1 51 (by decide) (by decide),
    h.2.2.2.1 101 (by decide) (by decide),
    h.2.2.2.2.1 151 (by decide) (by decide),
    h.2.2.2.2.2.1 300 (by decide) (by decide),
    h.2.2.2.2.2.2.1 301 (by decide), ?_⟩
  cases hp : build_embed c4_rec with
  | none => exact absurd hp (by simp [build_embed, c4_rec])
  | some p =>
    have hcol := (h.2.2.2.2.2.2.2 c4_rec "高雄市" "前金" p rfl rfl hp).1
    have h120 : pyInt (c4_rec.aqi.getD "N/A") = some 120 := by decide
    rw [Option.map_some', hcol, h120,
      h.2.2.2.1 120 (by decide) (by decide)]

/-! ## C9: fixed field layout, missing fields render as literal N/A -/

/-- C9: whenever `build_embed` produces a payload, its `fields` array is
exactly the thirteen entries below, in this order: location, AQI,
status, the six pollutant readings, wind speed, wind direction, update
timestamp and the remark; every optional field carries
`Option.getD _ "N/A"`, i.e. its raw value when present and the literal
string `"N/A"` when the key is missing. -/
theorem build_embed_fields (data : StationRecord) (c s : String)
    (hc : data.county = some c) (hs : data.sitename = some s) :
    ∃ p, build_embed data = some p ∧
      p.fields =
        [ ⟨"地區", c ++ " / " ++ s, true⟩,
          ⟨"AQI", data.aqi.getD "N/A", true⟩,
          ⟨"狀態", data.status.getD "N/A", true⟩,
          ⟨"PM2.5", data.pm25.getD "N/A", true⟩,
          ⟨"PM10", data.pm10.getD "N/A", true⟩,
          ⟨"O₃", data.o3.getD "N/A", true⟩,
          ⟨"CO", data.co.getD "N/A", true⟩,
          ⟨"SO₂", data.so2.getD "N/A", true⟩,
          ⟨"NO₂", data.no2.getD "N/A", true⟩,
          ⟨"風速(m/s)", data.wind_speed.getD "N/A", true⟩,
          ⟨"風向(°)", data.wind_direc.getD "N/A", true⟩,
          ⟨"更新時間", data.publishtime.getD "N/A", false⟩,
          ⟨"📝 建議活動", (classify (pyInt (data.aqi.getD "N/A"))).1, false⟩ ] := by
  simp only [build_embed, hc, hs]
  exact ⟨_, rfl, rfl⟩

/-- Witness for C9: a record with all optional keys missing renders
every optional field as the literal string `"N/A"`. -/
theorem build_embed_fields_witness :
    ∃ p, build_embed { county := some "臺北市", sitename := some "中山" }
        = some p ∧
      p.fields =
        [ ⟨"地區", "臺北市 / 中山", true⟩,
          ⟨"AQI", "N/A", true⟩,
          ⟨"狀態", "N/A", true⟩,
          ⟨"PM2.5", "N/A", true⟩,
          ⟨"PM10", "N/A", true⟩,
          ⟨"O₃", "N/A", true⟩,
          ⟨"CO", "N/A", true⟩,
          ⟨"SO₂", "N/A", true⟩,
          ⟨"NO₂", "N/A", true⟩,
          ⟨"風速(m/s)", "N/A", true⟩,
          ⟨"風向(°)", "N/A", true⟩,
          ⟨"更新時間", "N/A", false⟩,
          ⟨"📝 建議活動", "無資料", false⟩ ] := by
  obtain ⟨p, hp, hf⟩ := build_embed_fields
    { county := some "臺北市", sitename := some "中山" } "臺北市" "中山" rfl rfl
  refine ⟨p, hp, ?_⟩
  rw [hf]
  rfl

/-! ## C10: negative AQI values land in the lowest bucket -/

/-- C10: a record whose AQI string parses to a negative integer is
classified into the lowest bucket — green colour and the "good" remark
— not as missing data, because the first branch tests `aqi_val <= 50`
with no lower bound. -/
theorem build_embed_negative_aqi (data : StationRecord) (v : Int)
    (p : Payload) (hv : pyInt (data.aqi.getD "N/A") = some v)
    (hneg : v < 0) (hp : build_embed data = some p) :
    p.color = 0x008000 ∧
    p.fields.getLast? =
      some ⟨"📝 建議活動", "👍 空氣品質良好，適合戶外活動!", false⟩ := by
  have hcl : classify (pyInt (data.aqi.getD "N/A"))
      = ("👍 空氣品質良好，適合戶外活動!", 0x008000) := by
    rw [hv]
    simp [classify, (by omega : v ≤ 50)]
  cases hc : data.county with
  | none => simp [build_embed, hc] at hp
  | some c =>
    cases hs : data.sitename with
    | none => simp [build_embed, hc, hs] at hp
    | some s =>
      simp only [build_embed, hc, hs] at hp
      obtain rfl : _ = p := Option.some_injective _ hp
      rw [hcl]
      exact ⟨rfl, rfl⟩

/-- A record with AQI `"-5"`. -/
def c10_rec : StationRecord :=
  { county := some "新北市", sitename := some "板橋", aqi := some "-5" }

/-- Witness for C10 at AQI `-5`. -/
theorem build_embed_negative_aqi_witness :
    ∃ p, build_embed c10_rec = some p ∧ p.color = 0x008000 ∧
      p.fields.getLast? =
        some ⟨"📝 建議活動", "👍 空氣品質良好，適合戶外活動!", false⟩ := by
  cases hp : build_embed c10_rec with
  | none => exact absurd hp (by simp [build_embed, c10_rec])
  | some p =>
    exact ⟨p, rfl,
      build_embed_negative_aqi c10_rec (-5) p (by decide) (by decide) hp⟩

/-! ## C7: haversine is symmetric and zero on identical points -/

/-- C7: for all coordinates, `haversine` is symmetric in its two
points, and the distance from a point to itself is exactly `0` (the
real-valued model has no floating-point error; Earth radius 6371 km as
in the source). -/
theorem haversine_symm_and_self :
    (∀ lat1 lon1 lat2 lon2 : ℝ,
      haversine lat1 lon1 lat2 lon2 = haversine lat2 lon2 lat1 lon1) ∧
    (∀ lat lon : ℝ, haversine lat lon lat lon = 0) := by
  have hsym : ∀ lat1 lon1 lat2 lon2 : ℝ,
      hav_a lat1 lon1 lat2 lon2 = hav_a lat2 lon2 lat1 lon1 := by
    intro lat1 lon1 lat2 lon2
    unfold hav_a
    have h1 : radians (lat1 - lat2) = -(radians (lat2 - lat1)) := by
      unfold radians; ring
    have h2 : radians (lon1 - lon2) = -(radians (lon2 - lon1)) := by
      unfold radians; ring
    rw [h1, h2, neg_div, neg_div, Real.sin_neg, Real.sin_neg]
    ring
  constructor
  · intro lat1 lon1 lat2 lon2
    unfold haversine
    rw [hsym]
  · intro lat lon
    have h0 : hav_a lat lon lat lon = 0 := by
      unfold hav_a
      rw [sub_self, sub_self]
      have hr : radians 0 = 0 := by unfold radians; ring
      rw [hr, zero_div, Real.sin_zero]
      ring
    unfold haversine
    rw [h0, Real.sqrt_zero, sub_zero, Real.sqrt_one]
    unfold atan2
    rw [if_pos one_pos, zero_div, Real.arctan_zero, mul_zero]

/-! ## Helper lemmas about the candidate list of `find_nearest` -/

/-- `leDist` is transitive. -/
theorem leDist_trans : ∀ a b c : StationRecord × ℝ,
    leDist a b → leDist b c → leDist a c := by
  intro a b c hab hbc
  simp only [leDist, decide_eq_true_eq] at *
  exact le_trans hab hbc

/-- `leDist` is total. -/
theorem leDist_total : ∀ a b : StationRecord × ℝ,
    leDist a b || leDist b a := by
  intro a b
  simp only [leDist, Bool.or_eq_true, decide_eq_true_eq]
  exact le_total a.2 b.2

/-- Mapping the candidate pairs back to their records gives exactly the
input records with parseable coordinates within range, in input order. -/
theorem cands_map_fst (records : List StationRecord) (lat lon km : ℝ) :
    (records.filterMap (toCand lat lon km)).map Prod.fst
      = records.filter
          (fun r => hasCoords r && decide (distOf lat lon r ≤ km)) := by
  induction records with
  | nil => rfl
  | cons r rs ih =>
    rw [List.filterMap_cons, List.filter_cons]
    cases hlat : r.latitude with
    | none => simp [toCand, hlat, hasCoords, ih]
    | some rl =>
      cases hlon : r.longitude with
      | none => simp [toCand, hlat, hlon, hasCoords, ih]
      | some rn =>
        have hd : distOf lat lon r = haversine lat lon rl rn := by
          simp [distOf, hlat, hlon]
        by_cases hle : haversine lat lon rl rn ≤ km
        · simp [toCand, hlat, hlon, hasCoords, hd, hle, ih]
        · simp [toCand, hlat, hlon, hasCoords, hd, hle, ih]

/-- Every candidate pair stores the distance of its record, and its
record has parseable coordinates and lies within range. -/
theorem cands_mem (records : List StationRecord) (lat lon km : ℝ) :
    ∀ p ∈ records.filterMap (toCand lat lon km),
      p.2 = distOf lat lon p.1 ∧ hasCoords p.1 = true ∧ p.2 ≤ km := by
  intro p hp
  rw [List.mem_filterMap] at hp
  obtain ⟨r, _, htc⟩ := hp
  cases hlat : r.latitude with
  | none => simp [toCand, hlat] at htc
  | some rl =>
    cases hlon : r.longitude with
    | none => simp [toCand, hlat, hlon] at htc
    | some rn =>
      simp only [toCand, hlat, hlon] at htc
      by_cases hle : haversine lat lon rl rn ≤ km
      · rw [if_pos hle] at htc
        obtain rfl : (r, haversine lat lon rl rn) = p :=
          Option.some_injective _ htc
        exact ⟨by simp [distOf, hlat, hlon], by simp [hasCoords, hlat, hlon],
          hle⟩
      · rw [if_neg hle] at htc
        exact absurd htc (by simp)

/-- Stability of the sort, phrased per distance class: the candidates at
any fixed stored distance `d` appear in the sorted list exactly as they
appear in the candidate list. -/
theorem mergeSort_filter_key (cands : List (StationRecord × ℝ)) (d : ℝ) :
    (cands.mergeSort leDist).filter (fun p => decide (p.2 = d))
      = cands.filter (fun p => decide (p.2 = d)) := by
  have hall : ∀ p ∈ cands.filter (fun p : StationRecord × ℝ =>
      decide (p.2 = d)), p.2 = d := by
    intro p hp
    have := (List.mem_filter.mp hp).2
    exact of_decide_eq_true this
  have hpair : (cands.filter (fun p : StationRecord × ℝ =>
      decide (p.2 = d))).Pairwise (fun a b => leDist a b = true) := by
    apply List.pairwise_of_forall_mem_list
    intro a ha b hb
    have : a.2 ≤ b.2 := by rw [hall a ha, hall b hb]
    exact decide_eq_true this
  have hc : List.Sublist
      (cands.filter (fun p : StationRecord × ℝ => decide (p.2 = d)))
      (cands.mergeSort leDist) :=
    List.sublist_mergeSort leDist_trans leDist_total hpair
      (List.filter_sublist cands)
  have hperm : List.Perm
      ((cands.mergeSort leDist).filter
        (fun p : StationRecord × ℝ => decide (p.2 = d)))
      (cands.filter (fun p : StationRecord × ℝ => decide (p.2 = d))) :=
    (List.mergeSort_perm cands leDist).filter _
  have hsub2 : List.Sublist
      (cands.filter (fun p : StationRecord × ℝ => decide (p.2 = d)))
      ((cands.mergeSort leDist).filter
        (fun p : StationRecord × ℝ => decide (p.2 = d))) := by
    have h2 := hc.filter (fun p : StationRecord × ℝ => decide (p.2 = d))
    rwa [List.filter_eq_self.mpr (fun a ha => decide_eq_true (hall a ha))]
      at h2
  exact (hsub2.eq_of_length hperm.length_eq.symm).symm

/-! ## C2: the station matcher -/

/-- C2: `find_nearest` returns exactly the input records with parseable
coordinates whose haversine distance to the query point is within the
radius (as a permutation of the input filter, clause 1), sorted by
non-decreasing distance (clause 2), all within the radius (clause 3),
and stably: within each distance class the output order is the input
order (clause 4). -/
theorem find_nearest_spec (records : List StationRecord) (lat lon km : ℝ) :
    List.Perm (find_nearest records lat lon km)
      (records.filter
        (fun r => hasCoords r && decide (distOf lat lon r ≤ km))) ∧
    (find_nearest records lat lon km).Pairwise
      (fun a b => distOf lat lon a ≤ distOf lat lon b) ∧
    (∀ r ∈ find_nearest records lat lon km,
      hasCoords r = true ∧ distOf lat lon r ≤ km) ∧
    (∀ d : ℝ, (find_nearest records lat lon km).filter
        (fun r => decide (distOf lat lon r = d))
      = (records.filter
          (fun r => hasCoords r && decide (distOf lat lon r ≤ km))).filter
        (fun r => decide (distOf lat lon r = d))) := by
  have hperm : List.Perm (find_nearest records lat lon km)
      (records.filter
        (fun r => hasCoords r && decide (distOf lat lon r ≤ km))) := by
    simp only [find_nearest]
    have h1 := (List.mergeSort_perm (records.filterMap (toCand lat lon km))
      leDist).map Prod.fst
    rwa [cands_map_fst] at h1
  have hsorted : (find_nearest records lat lon km).Pairwise
      (fun a b => distOf lat lon a ≤ distOf lat lon b) := by
    simp only [find_nearest]
    rw [List.pairwise_map]
    have hs := List.sorted_mergeSort leDist_trans leDist_total
      (records.filterMap (toCand lat lon km))
    refine List.Pairwise.imp_of_mem ?_ hs
    intro a b ha hb hab
    have ha' := cands_mem records lat lon km a (List.mem_mergeSort.mp ha)
    have hb' := cands_mem records lat lon km b (List.mem_mergeSort.mp hb)
    rw [← ha'.1, ← hb'.1]
    simp only [leDist] at hab
    exact of_decide_eq_true hab
  have hmem : ∀ r ∈ find_nearest records lat lon km,
      hasCoords r = true ∧ distOf lat lon r ≤ km := by
    intro r hr
    have hq := (List.mem_filter.mp (hperm.mem_iff.mp hr)).2
    rw [Bool.and_eq_true] at hq
    exact ⟨hq.1, of_decide_eq_true hq.2⟩
  refine ⟨hperm, hsorted, hmem, ?_⟩
  intro d
  simp only [find_nearest]
  rw [List.filter_map]
  have e1 : ((records.filterMap (toCand lat lon km)).mergeSort leDist).filter
      ((fun r => decide (distOf lat lon r = d)) ∘ Prod.fst)
      = ((records.filterMap (toCand lat lon km)).mergeSort leDist).filter
        (fun p => decide (p.2 = d)) := by
    apply List.filter_congr
    intro p hp
    have h2 := (cands_mem records lat lon km p (List.mem_mergeSort.mp hp)).1
    simp [Function.comp, h2]
  have e2 : (records.filterMap (toCand lat lon km)).filter
      (fun p => decide (p.2 = d))
      = (records.filterMap (toCand lat lon km)).filter
        ((fun r => decide (distOf lat lon r = d)) ∘ Prod.fst) := by
    apply List.filter_congr
    intro p hp
    have h2 := (cands_mem records lat lon km p hp).1
    simp [Function.comp, h2]
  rw [e1, mergeSort_filter_key, e2, ← List.filter_map, cands_map_fst]

/-- A record with no parseable coordinates. -/
def noCoordsRec : StationRecord :=
  { county := some "南投縣", sitename := some "埔里" }

/-- Witness for C2: on a list whose only record lacks coordinates the
matcher returns the empty list. -/
theorem find_nearest_spec_witness : find_nearest [noCoordsRec] 0 0 1 = [] := by
  have h1 := (find_nearest_spec [noCoordsRec] 0 0 1).1
  have h2 : ([noCoordsRec].filter
      (fun r => hasCoords r && decide (distOf 0 0 r ≤ 1))) = [] := by
    simp [hasCoords, noCoordsRec]
  rw [h2] at h1
  exact h1.eq_nil

/-! ## C6: malformed coordinates are silently excluded -/

/-- C6: a record whose latitude or longitude is missing or unparseable
never appears in `find_nearest`'s output (and the embedding of
`find_nearest` is a total function: the `try/except` around `float`
turns the parse failure into a skip, never an error). -/
theorem find_nearest_excludes_malformed (records : List StationRecord)
    (lat lon km : ℝ) (r : StationRecord)
    (h : r.latitude = none ∨ r.longitude = none) :
    r ∉ find_nearest records lat lon km := by
  intro hmem
  simp only [find_nearest] at hmem
  rw [List.mem_map] at hmem
  obtain ⟨p, hp, hpr⟩ := hmem
  have hco := (cands_mem records lat lon km p (List.mem_mergeSort.mp hp)).2.1
  rw [hpr] at hco
  rcases h with h | h <;> simp [hasCoords, h] at hco

/-- Witness for C6: the coordinate-free record is not in the output. -/
theorem find_nearest_excludes_malformed_witness :
    noCoordsRec ∉ find_nearest [noCoordsRec] 0 0 1 :=
  find_nearest_excludes_malformed [noCoordsRec] 0 0 1 noCoordsRec
    (Or.inl rfl)
